import Mathlib

/-!
Shallow embedding of the `toridoriv/logger` stack-capture subsystem
(`lib/callsites.mjs`) and its consumer, the `LogRecord` class
(`lib/record.mjs`), together with theorems settling the specification
claims about them.

Modelling conventions:
* a V8 `CallSite` handle is a structure whose fields are the results of its
  sixteen accessor methods; object references (the receiver `this` and the
  function object) are modelled by opaque numeric identities;
* the process-wide hook `Error.prepareStackTrace` is an `Option Nat`
  (identity of the installed function, `none` = `undefined`); the hook the
  library installs is the distinguished identity `rawHookId`;
* JavaScript exceptions are an explicit `Except JsError` result;
* `undefined`/`null` field results are `Option` values, and JavaScript
  truthiness is made explicit wherever `||` or `if (value)` occurs.
-/

set_option autoImplicit false

namespace Logger

/-- A JavaScript runtime error raised by the embedded code, plus the
`UnsupportedPlatform` signal the specification speaks about (the source never
constructs the latter; it is present so that statements about it can be
made). -/
inductive JsError where
  | typeError : String → JsError
  | unsupportedPlatform : JsError
  deriving Repr, DecidableEq

instance {ε α : Type} [DecidableEq ε] [DecidableEq α] :
    DecidableEq (Except ε α) := fun x y =>
  match x, y with
  | .ok a, .ok b =>
    if h : a = b then .isTrue (by rw [h]) else .isFalse (by simp [h])
  | .error a, .error b =>
    if h : a = b then .isTrue (by rw [h]) else .isFalse (by simp [h])
  | .ok _, .error _ => .isFalse (by simp)
  | .error _, .ok _ => .isFalse (by simp)

/-- One V8 `CallSite` handle: a field per accessor method of the global
`CallSite` interface (`typings/global.d.ts`).  `getThis`/`getFunction` return
runtime references, modelled as opaque numeric identities (`none` =
`undefined` in strict mode). -/
structure CallSite where
  getThis : Option Nat
  getTypeName : Option String
  getFunction : Option Nat
  getFunctionName : Option String
  getMethodName : Option String
  getFileName : Option String
  getLineNumber : Option Int
  getColumnNumber : Option Int
  getEvalOrigin : Option String
  isToplevel : Bool
  isEval : Bool
  isNative : Bool
  isConstructor : Bool
  isAsync : Bool
  isPromiseAll : Bool
  getPromiseIndex : Int
  deriving Repr, DecidableEq

/-- A value stored in one field of an `ExpandedCallSite` descriptor object:
a reference, a nullable string, a nullable number, or a boolean. -/
inductive FrameValue where
  | ref : Option Nat → FrameValue
  | str : Option String → FrameValue
  | int : Option Int → FrameValue
  | bool : Bool → FrameValue
  deriving Repr, DecidableEq

/-- A parsed frame descriptor (`Callsites.ExpandedCallSite`): a JavaScript
object, i.e. an insertion-ordered association list of property names to
values. -/
abbrev Frame := List (String × FrameValue)

/-- `CALLSITE_METHODS` from `lib/callsites.mjs`: the array of known
`CallSite` methods, in source order. -/
def CALLSITE_METHODS : List String :=
  [ "getThis"
  , "getTypeName"
  , "getFunction"
  , "getFunctionName"
  , "getMethodName"
  , "getFileName"
  , "getLineNumber"
  , "getColumnNumber"
  , "getEvalOrigin"
  , "isToplevel"
  , "isEval"
  , "isNative"
  , "isConstructor"
  , "isAsync"
  , "isPromiseAll"
  , "getPromiseIndex" ]

/-- `String.prototype.replace(pat, "")` for a plain-string pattern: remove
the first occurrence of `pat` (as a character list) from `s`.  Used to embed
`method.replace("get", "")`. -/
def removeFirstSub (pat : List Char) : List Char → List Char
  | [] => []
  | c :: rest =>
    if (c :: rest).take pat.length = pat then (c :: rest).drop pat.length
    else c :: removeFirstSub pat rest

/-- `noGet[0].toLowerCase() + noGet.substring(1)` on a character list (the
source never applies it to an empty string). -/
def lowerFirst : List Char → List Char
  | [] => []
  | c :: rest => c.toLower :: rest

/-- The descriptor property name derived from a `CallSite` method name in
`parseCallsite`: strip the first occurrence of `"get"`, lower-case the first
remaining character. -/
def propertyName (method : String) : String :=
  ⟨lowerFirst (removeFirstSub "get".data method.data)⟩

/-- `cs[method]()`: invoke the named accessor on a `CallSite` handle.
Unknown method names yield `none` (in JavaScript the call would throw; the
loop in `parseCallsite` only ever uses the sixteen known names). -/
def invokeMethod (cs : CallSite) : String → Option FrameValue
  | "getThis" => some (.ref cs.getThis)
  | "getTypeName" => some (.str cs.getTypeName)
  | "getFunction" => some (.ref cs.getFunction)
  | "getFunctionName" => some (.str cs.getFunctionName)
  | "getMethodName" => some (.str cs.getMethodName)
  | "getFileName" => some (.str cs.getFileName)
  | "getLineNumber" => some (.int cs.getLineNumber)
  | "getColumnNumber" => some (.int cs.getColumnNumber)
  | "getEvalOrigin" => some (.str cs.getEvalOrigin)
  | "isToplevel" => some (.bool cs.isToplevel)
  | "isEval" => some (.bool cs.isEval)
  | "isNative" => some (.bool cs.isNative)
  | "isConstructor" => some (.bool cs.isConstructor)
  | "isAsync" => some (.bool cs.isAsync)
  | "isPromiseAll" => some (.bool cs.isPromiseAll)
  | "getPromiseIndex" => some (.int cs.getPromiseIndex)
  | _ => none

/-- `parseCallsite` from `lib/callsites.mjs`: build the descriptor object by
assigning, for each method of `CALLSITE_METHODS` in order, the accessor's
result to the derived property name. -/
def parseCallsite (cs : CallSite) : Frame :=
  CALLSITE_METHODS.filterMap fun method =>
    (invokeMethod cs method).map fun value => (propertyName method, value)

/-- The identity of the hook `(_, callsites) => callsites` that `callsites`
installs into `Error.prepareStackTrace`. -/
def rawHookId : Nat := 0

/-- The error argument of `callsites`: whether it is an instance of the
module-private marker class `StackOnlyError`, and the raw frame sequence the
runtime exposes through `error.stack` when the raw hook is installed
(`none` when the runtime lacks the V8 stack-trace API and `error.stack` is
not a `CallSite` array). -/
structure ErrorCtx where
  isStackOnly : Bool
  rawFrames : Option (List CallSite)
  deriving Repr, DecidableEq

/-- `new StackOnlyError()` evaluated as the default argument inside the
`callsites` activation: an instance of the marker class. -/
def markerCtx (rawFrames : Option (List CallSite)) : ErrorCtx :=
  { isStackOnly := true, rawFrames := rawFrames }

/-- The body of the `try` block of `callsites`, executed with `hook`
installed in `Error.prepareStackTrace`: read `error.stack` (a `CallSite`
array only if the raw hook is in place and the platform supports the API),
`shift()` the first frame when the error is a `StackOnlyError`, and map
`parseCallsite` over the rest.  A non-array `stack` makes `shift`/`map`
throw a `TypeError`. -/
def callsitesBody (hook : Option Nat) (error : ErrorCtx) :
    Except JsError (List Frame) :=
  match (if hook = some rawHookId then error.rawFrames else none) with
  | none =>
      .error (.typeError
        (if error.isStackOnly then "stack.shift is not a function"
         else "stack.map is not a function"))
  | some stack =>
      let stack := if error.isStackOnly then stack.drop 1 else stack
      .ok (stack.map parseCallsite)

/-- `callsites` from `lib/callsites.mjs`, with the global
`Error.prepareStackTrace` slot threaded explicitly: save the current hook,
install the raw hook, run the body, and restore the saved hook in the
`finally` clause on both the normal and the exceptional path.  Returns the
result together with the final hook state. -/
def callsites (st : Option Nat) (error : ErrorCtx) :
    Except JsError (List Frame) × Option Nat :=
  let saved := st
  let installed : Option Nat := some rawHookId
  match callsitesBody installed error with
  | .ok frames => (.ok frames, saved)
  | .error e => (.error e, saved)

/-- JavaScript `slot || dflt` for a string-typed descriptor slot read off a
frame object (`cs.fileName || ""`, `cs.functionName || "none"`): the slot's
string when present and non-empty, the default when the slot is
`null`/`undefined`, empty, or absent.  Frames built by `parseCallsite`
always carry `.str` values in these slots. -/
def strOrElse (slot : Option FrameValue) (dflt : String) : String :=
  match slot with
  | some (.str (some s)) => if s = "" then dflt else s
  | _ => dflt

/-- JavaScript `slot || dflt` for a number-typed descriptor slot
(`cs.columnNumber || 0`): the slot's number when present and non-zero. -/
def intOrElse (slot : Option FrameValue) (dflt : Int) : Int :=
  match slot with
  | some (.int (some n)) => if n = 0 then dflt else n
  | _ => dflt

/-- `path.lastIndexOf("/")`, as `none` for JavaScript's `-1`. -/
def jsLastIndexOfSlash : List Char → Option Nat
  | [] => none
  | c :: rest =>
    match jsLastIndexOfSlash rest with
    | some i => some (i + 1)
    | none => if c = '/' then some 0 else none

/-- `path.substring(path.lastIndexOf("/") + 1)`: when a slash is present,
everything after the last one; `lastIndexOf` of `-1` makes it
`substring(0)`, the whole string. -/
def afterLastSlash (path : String) : String :=
  match jsLastIndexOfSlash path.data with
  | some i => ⟨path.data.drop (i + 1)⟩
  | none => ⟨path.data.drop 0⟩

/-- The object returned by `LogRecord.#getOriginDetails`. -/
structure OriginDetails where
  column : Int
  line : Int
  path : String
  fileName : String
  function : String
  deriving Repr, DecidableEq

/-- `LogRecord.#getOriginDetails` from `lib/record.mjs`: read the frame at
fixed index 2 of the captured descriptor sequence (an out-of-bounds read
yields `undefined`, on which the property accesses throw a `TypeError`),
then derive the five origin values with `||` defaults. -/
def getOriginDetails (frames : List Frame) : Except JsError OriginDetails :=
  match frames.get? 2 with
  | none => .error (.typeError "Cannot read properties of undefined")
  | some cs =>
      let path := strOrElse (cs.lookup "fileName") ""
      let fileName := if path = "" then "" else afterLastSlash path
      .ok { column := intOrElse (cs.lookup "columnNumber") 0
          , line := intOrElse (cs.lookup "lineNumber") 0
          , path := path
          , fileName := fileName
          , function := strOrElse (cs.lookup "functionName") "none" }

/-- A value of a `LogRecord` field as the constructor types them: a string,
a number, or a string array (`process.args`). -/
inductive JsValue where
  | str : String → JsValue
  | num : Int → JsValue
  | arr : List String → JsValue
  deriving Repr, DecidableEq

/-- JavaScript truthiness of a `JsValue`: the empty string and `0` are
falsy; every array — including the empty array — is truthy. -/
def JsValue.truthy : JsValue → Bool
  | .str s => !(s == "")
  | .num n => !(n == 0)
  | .arr _ => true

/-- The `LogRecord` entity of `lib/record.mjs`: one typed field per entry of
its static `properties` list (declaration order preserved), named by the
camel-cased dot path. -/
structure LogRecord where
  timestamp : String
  message : String
  data : String
  logLevel : String
  logLogger : String
  originColumn : Int
  originLine : Int
  originFileName : String
  originFilePath : String
  originFunction : String
  errorCode : String
  errorId : String
  errorMessage : String
  errorStackTrace : String
  errorType : String
  serviceName : String
  serviceVersion : String
  serviceEnvironment : String
  serviceId : String
  processArgs : List String
  processArgsCount : Int
  eventDuration : String
  httpVersion : String
  httpRequestId : String
  httpRequestMethod : String
  httpRequestMimeType : String
  httpResponseBodyContent : String
  httpResponseMimeType : String
  httpResponseStatusCode : Int
  urlDomain : String
  urlExtension : String
  urlFragment : String
  urlFull : String
  urlPassword : String
  urlPath : String
  urlPort : Int
  urlQuery : String
  urlScheme : String
  urlUsername : String

/-- `LogRecord.properties`: the frozen, ordered list of serializable keys
from `lib/record.mjs`. -/
def LogRecord.properties : List String :=
  [ "@timestamp"
  , "message"
  , "data"
  , "log.level"
  , "log.logger"
  , "log.origin.file.column"
  , "log.origin.file.line"
  , "log.origin.file.name"
  , "log.origin.file.path"
  , "log.origin.function"
  , "error.code"
  , "error.id"
  , "error.message"
  , "error.stack_trace"
  , "error.type"
  , "service.name"
  , "service.version"
  , "service.environment"
  , "service.id"
  , "process.args"
  , "process.args_count"
  , "event.duration"
  , "http.version"
  , "http.request.id"
  , "http.request.method"
  , "http.request.mime_type"
  , "http.response.body.content"
  , "http.response.mime_type"
  , "http.response.status_code"
  , "url.domain"
  , "url.extension"
  , "url.fragment"
  , "url.full"
  , "url.password"
  , "url.path"
  , "url.port"
  , "url.query"
  , "url.scheme"
  , "url.username" ]

/-- `this[key]`: the dynamic property read `toJSON` performs.  Keys outside
the declared field set read as `undefined` (`none`), which is falsy. -/
def LogRecord.get (r : LogRecord) : String → Option JsValue
  | "@timestamp" => some (.str r.timestamp)
  | "message" => some (.str r.message)
  | "data" => some (.str r.data)
  | "log.level" => some (.str r.logLevel)
  | "log.logger" => some (.str r.logLogger)
  | "log.origin.file.column" => some (.num r.originColumn)
  | "log.origin.file.line" => some (.num r.originLine)
  | "log.origin.file.name" => some (.str r.originFileName)
  | "log.origin.file.path" => some (.str r.originFilePath)
  | "log.origin.function" => some (.str r.originFunction)
  | "error.code" => some (.str r.errorCode)
  | "error.id" => some (.str r.errorId)
  | "error.message" => some (.str r.errorMessage)
  | "error.stack_trace" => some (.str r.errorStackTrace)
  | "error.type" => some (.str r.errorType)
  | "service.name" => some (.str r.serviceName)
  | "service.version" => some (.str r.serviceVersion)
  | "service.environment" => some (.str r.serviceEnvironment)
  | "service.id" => some (.str r.serviceId)
  | "process.args" => some (.arr r.processArgs)
  | "process.args_count" => some (.num r.processArgsCount)
  | "event.duration" => some (.str r.eventDuration)
  | "http.version" => some (.str r.httpVersion)
  | "http.request.id" => some (.str r.httpRequestId)
  | "http.request.method" => some (.str r.httpRequestMethod)
  | "http.request.mime_type" => some (.str r.httpRequestMimeType)
  | "http.response.body.content" => some (.str r.httpResponseBodyContent)
  | "http.response.mime_type" => some (.str r.httpResponseMimeType)
  | "http.response.status_code" => some (.num r.httpResponseStatusCode)
  | "url.domain" => some (.str r.urlDomain)
  | "url.extension" => some (.str r.urlExtension)
  | "url.fragment" => some (.str r.urlFragment)
  | "url.full" => some (.str r.urlFull)
  | "url.password" => some (.str r.urlPassword)
  | "url.path" => some (.str r.urlPath)
  | "url.port" => some (.num r.urlPort)
  | "url.query" => some (.str r.urlQuery)
  | "url.scheme" => some (.str r.urlScheme)
  | "url.username" => some (.str r.urlUsername)
  | _ => none

/-- The truthiness test `if (value)` of `toJSON`, applied to the dynamic
read `this[key]` (an absent key reads as `undefined`, which is falsy). -/
def LogRecord.truthyAt (r : LogRecord) (key : String) : Bool :=
  match r.get key with
  | some value => value.truthy
  | none => false

/-- `LogRecord.prototype.toJSON`: walk the declared property list in order
and copy each truthy-valued field into the result object. -/
def LogRecord.toJSON (r : LogRecord) : List (String × JsValue) :=
  LogRecord.properties.filterMap fun key =>
    match r.get key with
    | some value => if value.truthy then some (key, value) else none
    | none => none

/-- Ambient inputs of the `LogRecord` constructor that do not come from the
stack: the clock reading (`new Date().toISOString()`) and the value of
`Deno.args` when `globalThis.Deno` exists (`none` off Deno, where
`process.args` defaults to `[]`). -/
structure ConstructionEnv where
  timestamp : String
  denoArgs : Option (List String)

/-- `new LogRecord()`: evaluate the field initializer
`#callsites = callsites()` (no argument, so the marker error is used)
against the given hook state and raw stack, derive the origin details from
the captured frames, and populate every field with its constructor value.
Exceptions from the capture or the origin derivation propagate out of
construction.  Returns the result with the final hook state. -/
def LogRecord.construct (env : ConstructionEnv) (st : Option Nat)
    (rawStack : Option (List CallSite)) :
    Except JsError LogRecord × Option Nat :=
  let captured := callsites st (markerCtx rawStack)
  let st1 := captured.2
  match captured.1 with
  | .error e => (.error e, st1)
  | .ok frames =>
    match getOriginDetails frames with
    | .error e => (.error e, st1)
    | .ok od =>
      let args := match env.denoArgs with
        | some a => a
        | none => []
      (.ok { timestamp := env.timestamp
           , message := ""
           , data := ""
           , logLevel := ""
           , logLogger := "unknown"
           , originColumn := od.column
           , originLine := od.line
           , originFileName := od.fileName
           , originFilePath := od.path
           , originFunction := od.function
           , errorCode := ""
           , errorId := ""
           , errorMessage := ""
           , errorStackTrace := ""
           , errorType := ""
           , serviceName := ""
           , serviceVersion := ""
           , serviceEnvironment := ""
           , serviceId := ""
           , processArgs := args
           , processArgsCount := (args.length : Int)
           , eventDuration := ""
           , httpVersion := ""
           , httpRequestId := ""
           , httpRequestMethod := ""
           , httpRequestMimeType := ""
           , httpResponseBodyContent := ""
           , httpResponseMimeType := ""
           , httpResponseStatusCode := 0
           , urlDomain := ""
           , urlExtension := ""
           , urlFragment := ""
           , urlFull := ""
           , urlPassword := ""
           , urlPath := ""
           , urlPort := 0
           , urlQuery := ""
           , urlScheme := ""
           , urlUsername := "" }, st1)

/-- `Except` success as a boolean. -/
def exceptOk {ε α : Type} : Except ε α → Bool
  | .ok _ => true
  | .error _ => false

/-- The descriptor key list `parseCallsite` produces, in production order
(derived from `CALLSITE_METHODS` by the `propertyName` rule). -/
def expandedCallSiteKeys : List String :=
  [ "this"
  , "typeName"
  , "function"
  , "functionName"
  , "methodName"
  , "fileName"
  , "lineNumber"
  , "columnNumber"
  , "evalOrigin"
  , "isToplevel"
  , "isEval"
  , "isNative"
  , "isConstructor"
  , "isAsync"
  , "isPromiseAll"
  , "promiseIndex" ]

/-- The sixteen-field key set as the specification document names it,
verbatim ("receiver, typeName, function, …").  Kept separate from
`expandedCallSiteKeys` so the two can be compared. -/
def specFrameKeys : List String :=
  [ "receiver"
  , "typeName"
  , "function"
  , "functionName"
  , "methodName"
  , "fileName"
  , "lineNumber"
  , "columnNumber"
  , "evalOrigin"
  , "isToplevel"
  , "isEval"
  , "isNative"
  , "isConstructor"
  , "isAsync"
  , "isPromiseAll"
  , "promiseIndex" ]

/-- Structural agreement of two raw frames on everything except the
receiver (`getThis`) and the function object (`getFunction`): what "same
source location, same runtime stack" leaves equal across two captures. -/
def SameLocation (a b : CallSite) : Prop :=
  a.getTypeName = b.getTypeName ∧
  a.getFunctionName = b.getFunctionName ∧
  a.getMethodName = b.getMethodName ∧
  a.getFileName = b.getFileName ∧
  a.getLineNumber = b.getLineNumber ∧
  a.getColumnNumber = b.getColumnNumber ∧
  a.getEvalOrigin = b.getEvalOrigin ∧
  a.isToplevel = b.isToplevel ∧
  a.isEval = b.isEval ∧
  a.isNative = b.isNative ∧
  a.isConstructor = b.isConstructor ∧
  a.isAsync = b.isAsync ∧
  a.isPromiseAll = b.isPromiseAll ∧
  a.getPromiseIndex = b.getPromiseIndex

instance (a b : CallSite) : Decidable (SameLocation a b) := by
  unfold SameLocation; infer_instance

/-- Drop the call-dependent identity entries (`this`, `function`) from a
descriptor, keeping the location-determined fields. -/
def stripIdentity (d : Frame) : Frame :=
  d.filter fun p => !(p.1 == "this") && !(p.1 == "function")

/-- Two descriptors are structurally equal outside the identity fields. -/
def AgreeExceptIdentity (d₁ d₂ : Frame) : Prop :=
  stripIdentity d₁ = stripIdentity d₂

/-- A concrete raw frame: a plain function call in a script file. -/
def siteA : CallSite :=
  { getThis := some 1
  , getTypeName := some "Object"
  , getFunction := some 11
  , getFunctionName := some "getCallSite"
  , getMethodName := none
  , getFileName := some "file:///proj/test/fixtures/callsites.mjs"
  , getLineNumber := some 7
  , getColumnNumber := some 28
  , getEvalOrigin := none
  , isToplevel := false
  , isEval := false
  , isNative := false
  , isConstructor := false
  , isAsync := false
  , isPromiseAll := false
  , getPromiseIndex := 0 }

/-- A concrete raw frame: the `callsites` activation itself. -/
def siteB : CallSite :=
  { getThis := none
  , getTypeName := none
  , getFunction := some 12
  , getFunctionName := some "callsites"
  , getMethodName := none
  , getFileName := some "file:///proj/lib/callsites.mjs"
  , getLineNumber := some 74
  , getColumnNumber := some 17
  , getEvalOrigin := none
  , isToplevel := false
  , isEval := false
  , isNative := false
  , isConstructor := false
  , isAsync := false
  , isPromiseAll := false
  , getPromiseIndex := 0 }

/-- A concrete raw frame: a top-level module frame with no function name
and a zero column (both falsy). -/
def siteC : CallSite :=
  { getThis := some 2
  , getTypeName := none
  , getFunction := none
  , getFunctionName := none
  , getMethodName := none
  , getFileName := some "file:///proj/mod.ts"
  , getLineNumber := some 5
  , getColumnNumber := some 0
  , getEvalOrigin := none
  , isToplevel := true
  , isEval := false
  , isNative := false
  , isConstructor := false
  , isAsync := false
  , isPromiseAll := false
  , getPromiseIndex := 0 }

/-- A concrete raw frame: a native frame without file or line. -/
def siteD : CallSite :=
  { getThis := none
  , getTypeName := none
  , getFunction := some 14
  , getFunctionName := some "run"
  , getMethodName := some "run"
  , getFileName := none
  , getLineNumber := none
  , getColumnNumber := none
  , getEvalOrigin := none
  , isToplevel := false
  , isEval := false
  , isNative := true
  , isConstructor := false
  , isAsync := false
  , isPromiseAll := false
  , getPromiseIndex := 0 }

/-- `siteA` as seen by a second capture of the same call site: identical
location data, fresh receiver/function identities. -/
def siteA' : CallSite :=
  { siteA with getThis := some 21, getFunction := some 31 }

/-- `siteC` as seen by a second capture of the same call site. -/
def siteC' : CallSite :=
  { siteC with getThis := some 22, getFunction := none }

/-- A concrete constructor environment: a clock reading, no Deno global
(so `process.args` defaults to the empty array). -/
def sampleEnv : ConstructionEnv :=
  { timestamp := "2023-12-10T20:55:18.908Z", denoArgs := none }

/-- A concrete raw stack for a `new LogRecord()` call, as the marker error
sees it: the `callsites` activation, the field initializer, the
constructor, and the instantiating caller. -/
def sampleStack : List CallSite := [siteB, siteB, siteB, siteA]

/-- An all-default record value, used only as the unreachable fallback when
destructuring a construction result already known to succeed. -/
def fallbackRecord : LogRecord :=
  { timestamp := ""
  , message := ""
  , data := ""
  , logLevel := ""
  , logLogger := ""
  , originColumn := 0
  , originLine := 0
  , originFileName := ""
  , originFilePath := ""
  , originFunction := ""
  , errorCode := ""
  , errorId := ""
  , errorMessage := ""
  , errorStackTrace := ""
  , errorType := ""
  , serviceName := ""
  , serviceVersion := ""
  , serviceEnvironment := ""
  , serviceId := ""
  , processArgs := []
  , processArgsCount := 0
  , eventDuration := ""
  , httpVersion := ""
  , httpRequestId := ""
  , httpRequestMethod := ""
  , httpRequestMimeType := ""
  , httpResponseBodyContent := ""
  , httpResponseMimeType := ""
  , httpResponseStatusCode := 0
  , urlDomain := ""
  , urlExtension := ""
  , urlFragment := ""
  , urlFull := ""
  , urlPassword := ""
  , urlPath := ""
  , urlPort := 0
  , urlQuery := ""
  , urlScheme := ""
  , urlUsername := "" }

/-- The record produced by `new LogRecord()` in the sample environment with
the sample stack (construction succeeds there, so the fallback arm is
dead). -/
def freshRecord : LogRecord :=
  match (LogRecord.construct sampleEnv none (some sampleStack)).1 with
  | .ok r => r
  | .error _ => fallbackRecord

/-! ## Helper lemmas -/

theorem parseCallsite_lookup_fileName (c : CallSite) :
    (parseCallsite c).lookup "fileName" = some (.str c.getFileName) := rfl

theorem parseCallsite_lookup_lineNumber (c : CallSite) :
    (parseCallsite c).lookup "lineNumber" = some (.int c.getLineNumber) := rfl

theorem parseCallsite_lookup_columnNumber (c : CallSite) :
    (parseCallsite c).lookup "columnNumber" = some (.int c.getColumnNumber) := rfl

theorem parseCallsite_lookup_functionName (c : CallSite) :
    (parseCallsite c).lookup "functionName" = some (.str c.getFunctionName) := rfl

theorem keys_of_truthy_filterMap (r : LogRecord) (l : List String) :
    (l.filterMap fun key => match r.get key with
       | some value => if value.truthy then some (key, value) else none
       | none => none).map Prod.fst
      = l.filter r.truthyAt := by
  induction l with
  | nil => rfl
  | cons k ks ih =>
    simp only [List.filterMap_cons, List.filter_cons]
    cases hk : r.get k with
    | none => simp [LogRecord.truthyAt, hk, ih]
    | some v => cases hv : v.truthy <;> simp [LogRecord.truthyAt, hk, hv, ih]

theorem toJSON_keys_eq (r : LogRecord) :
    r.toJSON.map Prod.fst = LogRecord.properties.filter r.truthyAt :=
  keys_of_truthy_filterMap r LogRecord.properties

theorem properties_nodup : LogRecord.properties.Nodup := by decide

theorem mem_toJSON_keys (r : LogRecord) (key : String) :
    key ∈ r.toJSON.map Prod.fst ↔
      key ∈ LogRecord.properties ∧ r.truthyAt key = true := by
  rw [toJSON_keys_eq]
  exact List.mem_filter

theorem parseCallsite_same_location {a b : CallSite} (h : SameLocation a b) :
    AgreeExceptIdentity (parseCallsite a) (parseCallsite b) ∧
    (parseCallsite a).lookup "fileName" = (parseCallsite b).lookup "fileName" ∧
    (parseCallsite a).lookup "lineNumber" = (parseCallsite b).lookup "lineNumber" ∧
    (parseCallsite a).lookup "columnNumber"
      = (parseCallsite b).lookup "columnNumber" ∧
    (parseCallsite a).lookup "functionName"
      = (parseCallsite b).lookup "functionName" := by
  obtain ⟨t₁, ty₁, f₁, fn₁, m₁, fi₁, l₁, c₁, e₁, p₁, p₂, p₃, p₄, p₅, p₆, q₁⟩ := a
  obtain ⟨t₂, ty₂, f₂, fn₂, m₂, fi₂, l₂, c₂, e₂, r₁, r₂, r₃, r₄, r₅, r₆, s₁⟩ := b
  obtain ⟨h1, h2, h3, h4, h5, h6, h7, h8, h9, h10, h11, h12, h13, h14⟩ := h
  replace h1 : ty₁ = ty₂ := h1
  replace h2 : fn₁ = fn₂ := h2
  replace h3 : m₁ = m₂ := h3
  replace h4 : fi₁ = fi₂ := h4
  replace h5 : l₁ = l₂ := h5
  replace h6 : c₁ = c₂ := h6
  replace h7 : e₁ = e₂ := h7
  replace h8 : p₁ = r₁ := h8
  replace h9 : p₂ = r₂ := h9
  replace h10 : p₃ = r₃ := h10
  replace h11 : p₄ = r₄ := h11
  replace h12 : p₅ = r₅ := h12
  replace h13 : p₆ = r₆ := h13
  replace h14 : q₁ = s₁ := h14
  subst h1 h2 h3 h4 h5 h6 h7 h8 h9 h10 h11 h12 h13 h14
  exact ⟨rfl, rfl, rfl, rfl, rfl⟩

theorem forall2_drop_one {α β : Type} {R : α → β → Prop} {l₁ : List α}
    {l₂ : List β} (h : List.Forall₂ R l₁ l₂) :
    List.Forall₂ R (l₁.drop 1) (l₂.drop 1) := by
  cases h with
  | nil => exact .nil
  | cons _ t => simpa using t

theorem forall2_map_parseCallsite {l₁ l₂ : List CallSite}
    (h : List.Forall₂ SameLocation l₁ l₂) :
    List.Forall₂
      (fun d₁ d₂ =>
        AgreeExceptIdentity d₁ d₂ ∧
        d₁.lookup "fileName" = d₂.lookup "fileName" ∧
        d₁.lookup "lineNumber" = d₂.lookup "lineNumber" ∧
        d₁.lookup "columnNumber" = d₂.lookup "columnNumber" ∧
        d₁.lookup "functionName" = d₂.lookup "functionName")
      (l₁.map parseCallsite) (l₂.map parseCallsite) := by
  induction h with
  | nil => exact .nil
  | cons hab _ ih => exact .cons (parseCallsite_same_location hab) ih

/-! ## Claim theorems -/

/-- Claim C1: for every call to `callsites`, on the normal path and on every
exceptional path (a fault while reading or mapping frames), the global
`Error.prepareStackTrace` slot ends up exactly equal to its pre-call
value. -/
theorem callsites_restores_prepareStackTrace (st : Option Nat)
    (error : ErrorCtx) :
    (callsites st error).2 = st := by
  simp only [callsites]
  cases h : callsitesBody (some rawHookId) error <;> simp [h]

/-- Claim C2: a no-argument `callsites()` call (marker error) returns
exactly the raw frame sequence minus its first frame, each mapped through
`parseCallsite` in order; a caller-supplied (non-marker) error drops no
frame and maps every raw frame in order. -/
theorem callsites_frame_selection (st : Option Nat) (fs gs : List CallSite)
    (e : ErrorCtx) (hmk : e.isStackOnly = false)
    (hst : e.rawFrames = some gs) :
    (callsites st (markerCtx (some fs))).1
      = .ok ((fs.drop 1).map parseCallsite) ∧
    (callsites st e).1 = .ok (gs.map parseCallsite) := by
  refine ⟨rfl, ?_⟩
  simp [callsites, callsitesBody, hmk, hst]

/-- Witness for C2 at a concrete two-frame stack and a concrete
caller-supplied error. -/
theorem callsites_frame_selection_witness :
    (callsites none (markerCtx (some [siteB, siteA]))).1
      = .ok (([siteB, siteA].drop 1).map parseCallsite) ∧
    (callsites none ⟨false, some [siteA, siteC]⟩).1
      = .ok ([siteA, siteC].map parseCallsite) :=
  callsites_frame_selection none [siteB, siteA] [siteA, siteC]
    ⟨false, some [siteA, siteC]⟩ rfl rfl

/-- Claim C6's counterexample: when the runtime exposes no `CallSite` array
(`error.stack` is not an array), a no-argument `callsites()` call fails with
a plain `TypeError` raised by `stack.shift`, not with an
`UnsupportedPlatform` signal — no such signal exists in the code. -/
theorem callsites_unsupported_signal_counterexample :
    (callsites none (markerCtx none)).1
      = .error (.typeError "stack.shift is not a function") ∧
    (callsites none (markerCtx none)).1 ≠ .error .unsupportedPlatform := by
  decide

/-- Claim C6 (amended): when the runtime lacks stack-introspection
capability, a no-argument `callsites()` call fails explicitly — with the
`TypeError` thrown by calling `shift` on the non-array `stack` — and never
silently returns a frame sequence, in particular never an empty one. -/
theorem callsites_missing_stack_throws (st : Option Nat) :
    (callsites st (markerCtx none)).1
      = .error (.typeError "stack.shift is not a function") ∧
    ∀ frames, (callsites st (markerCtx none)).1 ≠ .ok frames := by
  refine ⟨rfl, ?_⟩
  intro frames
  simp [callsites, callsitesBody, markerCtx]

/-- Claim C5's counterexample: the specification's sixteen-key list names a
`receiver` key, but descriptors built by `parseCallsite` carry the key
`this` (from `getThis`, whose `"get"` is stripped) and no `receiver` key at
all. -/
theorem parseCallsite_receiver_key_counterexample :
    "receiver" ∈ specFrameKeys ∧
    "receiver" ∉ (parseCallsite siteA).map Prod.fst ∧
    (parseCallsite siteA).map Prod.fst ≠ specFrameKeys := by
  decide

/-- Claim C5 (amended): for every `CallSite`, the descriptor built by
`parseCallsite` has exactly the sixteen keys `this, typeName, function,
functionName, methodName, fileName, lineNumber, columnNumber, evalOrigin,
isToplevel, isEval, isNative, isConstructor, isAsync, isPromiseAll,
promiseIndex`, one per probe of `CALLSITE_METHODS`, in probe order, with no
duplicate and no key outside that set. -/
theorem parseCallsite_key_set (cs : CallSite) :
    (parseCallsite cs).map Prod.fst = expandedCallSiteKeys ∧
    ((parseCallsite cs).map Prod.fst).Nodup := by
  refine ⟨rfl, ?_⟩
  show expandedCallSiteKeys.Nodup
  decide

/-- Claim C3: every successfully constructed `LogRecord` derives its five
origin fields from the frame at fixed offset 2 of the captured sequence:
column and line are the frame's numbers when non-falsy (else `0`), the path
is the frame's file name when non-falsy (else `""`), the file name is the
substring of the path after the last `/` (empty when the path is empty),
and the function is the frame's function name when non-falsy (else
`"none"`). -/
theorem logRecord_origin_derivation (env : ConstructionEnv) (st : Option Nat)
    (stack : List CallSite) (c : CallSite) (r : LogRecord)
    (hc : (stack.drop 1).get? 2 = some c)
    (hr : (LogRecord.construct env st (some stack)).1 = .ok r) :
    r.originColumn = (match c.getColumnNumber with
      | some n => if n = 0 then 0 else n
      | none => 0) ∧
    r.originLine = (match c.getLineNumber with
      | some n => if n = 0 then 0 else n
      | none => 0) ∧
    r.originFilePath = (match c.getFileName with
      | some s => if s = "" then "" else s
      | none => "") ∧
    r.originFileName
      = (if r.originFilePath = "" then "" else afterLastSlash r.originFilePath) ∧
    r.originFunction = (match c.getFunctionName with
      | some s => if s = "" then "none" else s
      | none => "none") := by
  have hx : stack[3]? = some c := by
    rw [List.get?_eq_getElem?, List.getElem?_drop] at hc
    simpa using hc
  simp [LogRecord.construct, callsites, callsitesBody, markerCtx,
    getOriginDetails, hx] at hr
  refine ⟨?_, ?_, ?_, ?_, ?_⟩
  · rw [← hr]
    show intOrElse ((parseCallsite c).lookup "columnNumber") 0 = _
    rw [parseCallsite_lookup_columnNumber]
    cases c.getColumnNumber with
    | none => rfl
    | some n => by_cases hn : n = 0 <;> simp [intOrElse, hn]
  · rw [← hr]
    show intOrElse ((parseCallsite c).lookup "lineNumber") 0 = _
    rw [parseCallsite_lookup_lineNumber]
    cases c.getLineNumber with
    | none => rfl
    | some n => by_cases hn : n = 0 <;> simp [intOrElse, hn]
  · rw [← hr]
    show strOrElse ((parseCallsite c).lookup "fileName") "" = _
    rw [parseCallsite_lookup_fileName]
    cases c.getFileName with
    | none => rfl
    | some s => by_cases hs : s = "" <;> simp [strOrElse, hs]
  · rw [← hr]
  · rw [← hr]
    show strOrElse ((parseCallsite c).lookup "functionName") "none" = _
    rw [parseCallsite_lookup_functionName]
    cases c.getFunctionName with
    | none => rfl
    | some s => by_cases hs : s = "" <;> simp [strOrElse, hs]

/-- Witness for C3 at a concrete four-frame stack whose offset-2 frame
(after the marker drop) is `siteA`. -/
theorem logRecord_origin_derivation_witness :
    freshRecord.originColumn = (match siteA.getColumnNumber with
      | some n => if n = 0 then 0 else n
      | none => 0) ∧
    freshRecord.originLine = (match siteA.getLineNumber with
      | some n => if n = 0 then 0 else n
      | none => 0) ∧
    freshRecord.originFilePath = (match siteA.getFileName with
      | some s => if s = "" then "" else s
      | none => "") ∧
    freshRecord.originFileName
      = (if freshRecord.originFilePath = "" then ""
         else afterLastSlash freshRecord.originFilePath) ∧
    freshRecord.originFunction = (match siteA.getFunctionName with
      | some s => if s = "" then "none" else s
      | none => "none") :=
  logRecord_origin_derivation sampleEnv none sampleStack siteA freshRecord
    rfl rfl

/-- Claim C4: for every `LogRecord` value, the `toJSON` mapping carries
exactly the declared keys whose current value is truthy, in declared order,
with no duplicate and no key outside the declared list. -/
theorem toJSON_exact_truthy_keys (r : LogRecord) :
    r.toJSON.map Prod.fst = LogRecord.properties.filter r.truthyAt ∧
    (r.toJSON.map Prod.fst).Nodup ∧
    ∀ key ∈ r.toJSON.map Prod.fst, key ∈ LogRecord.properties := by
  refine ⟨toJSON_keys_eq r, ?_, ?_⟩
  · rw [toJSON_keys_eq]
    exact properties_nodup.filter _
  · intro key hk
    rw [toJSON_keys_eq] at hk
    exact List.mem_of_mem_filter hk

/-- Claim C7's counterexample: a freshly constructed record serializes
`log.logger` even though its value is exactly the construction-time default
`"unknown"`, so inclusion is not "differs from the default". -/
theorem toJSON_default_logger_counterexample :
    (LogRecord.construct sampleEnv none (some sampleStack)).1
      = .ok freshRecord ∧
    freshRecord.logLogger = "unknown" ∧
    "log.logger" ∈ freshRecord.toJSON.map Prod.fst := by
  refine ⟨rfl, rfl, ?_⟩
  decide

/-- Claim C7 (amended): `toJSON` omits every declared field whose current
value is falsy — in particular every field still holding a falsy default —
and includes every declared field whose current value is truthy, in the
declared order; inclusion is decided by truthiness alone, not by difference
from the construction-time default. -/
theorem toJSON_inclusion_by_truthiness (r : LogRecord) (key : String)
    (hmem : key ∈ LogRecord.properties) :
    (r.truthyAt key = false → key ∉ r.toJSON.map Prod.fst) ∧
    (r.truthyAt key = true → key ∈ r.toJSON.map Prod.fst) ∧
    r.toJSON.map Prod.fst = LogRecord.properties.filter r.truthyAt := by
  refine ⟨?_, ?_, toJSON_keys_eq r⟩
  · intro hf hk
    rw [mem_toJSON_keys] at hk
    rw [hk.2] at hf
    cases hf
  · intro ht
    exact (mem_toJSON_keys r key).2 ⟨hmem, ht⟩

/-- Witness for C7's amended theorem: the fresh sample record omits the
still-default falsy `log.level`. -/
theorem toJSON_inclusion_by_truthiness_witness :
    "log.level" ∉ freshRecord.toJSON.map Prod.fst :=
  (toJSON_inclusion_by_truthiness freshRecord "log.level" (by decide)).1
    (by decide)

/-- Claim C8: two captures over raw stacks that agree on everything except
the receiver and function identities return descriptor sequences that are
structurally equal outside the `this`/`function` entries; corresponding
descriptors have identical `fileName`, `lineNumber`, `columnNumber` and
`functionName`. -/
theorem callsites_location_determinism (st₁ st₂ : Option Nat)
    (fs₁ fs₂ : List CallSite) (h : List.Forall₂ SameLocation fs₁ fs₂) :
    (callsites st₁ (markerCtx (some fs₁))).1
      = .ok ((fs₁.drop 1).map parseCallsite) ∧
    (callsites st₂ (markerCtx (some fs₂))).1
      = .ok ((fs₂.drop 1).map parseCallsite) ∧
    List.Forall₂
      (fun d₁ d₂ =>
        AgreeExceptIdentity d₁ d₂ ∧
        d₁.lookup "fileName" = d₂.lookup "fileName" ∧
        d₁.lookup "lineNumber" = d₂.lookup "lineNumber" ∧
        d₁.lookup "columnNumber" = d₂.lookup "columnNumber" ∧
        d₁.lookup "functionName" = d₂.lookup "functionName")
      ((fs₁.drop 1).map parseCallsite) ((fs₂.drop 1).map parseCallsite) :=
  ⟨rfl, rfl, forall2_map_parseCallsite (forall2_drop_one h)⟩

/-- Witness for C8 at two concrete two-frame stacks differing only in
receiver/function identities. -/
theorem callsites_location_determinism_witness :
    (callsites none (markerCtx (some [siteA, siteC]))).1
      = .ok (([siteA, siteC].drop 1).map parseCallsite) ∧
    (callsites (some 5) (markerCtx (some [siteA', siteC']))).1
      = .ok (([siteA', siteC'].drop 1).map parseCallsite) ∧
    List.Forall₂
      (fun d₁ d₂ =>
        AgreeExceptIdentity d₁ d₂ ∧
        d₁.lookup "fileName" = d₂.lookup "fileName" ∧
        d₁.lookup "lineNumber" = d₂.lookup "lineNumber" ∧
        d₁.lookup "columnNumber" = d₂.lookup "columnNumber" ∧
        d₁.lookup "functionName" = d₂.lookup "functionName")
      (([siteA, siteC].drop 1).map parseCallsite)
      (([siteA', siteC'].drop 1).map parseCallsite) :=
  callsites_location_determinism none (some 5) [siteA, siteC]
    [siteA', siteC'] (.cons (by decide) (.cons (by decide) .nil))

/-- Claim C9: `LogRecord` construction reads index 2 of the captured
sequence without a bounds check; with at least three captured frames (after
the marker drop) the access is in bounds and construction succeeds, and
with fewer the access yields an absent frame and construction raises a
`TypeError` instead of producing a record with defaulted origin fields. -/
theorem construct_frame_bounds (env : ConstructionEnv) (st : Option Nat)
    (stack : List CallSite) :
    (3 ≤ (stack.drop 1).length →
      exceptOk (LogRecord.construct env st (some stack)).1 = true) ∧
    ((stack.drop 1).length < 3 →
      ((stack.drop 1).map parseCallsite).get? 2 = none ∧
      (LogRecord.construct env st (some stack)).1
        = .error (.typeError "Cannot read properties of undefined")) := by
  constructor
  · intro h3
    have hlen : 3 < stack.length := by
      rw [List.length_drop] at h3
      omega
    cases hx : stack[3]? with
    | none =>
      rw [List.getElem?_eq_none_iff] at hx
      omega
    | some c =>
      simp [LogRecord.construct, callsites, callsitesBody, markerCtx,
        getOriginDetails, hx, exceptOk]
  · intro h
    have hlen : stack.length ≤ 3 := by
      rw [List.length_drop] at h
      omega
    have hnone : stack[3]? = none := by
      rw [List.getElem?_eq_none_iff]
      exact hlen
    constructor
    · rw [List.get?_eq_getElem?, List.getElem?_map, List.getElem?_drop]
      simp [hnone]
    · simp [LogRecord.construct, callsites, callsitesBody, markerCtx,
        getOriginDetails, hnone]

/-- Witness for C9: construction succeeds on a four-frame raw stack and
raises on a two-frame raw stack. -/
theorem construct_frame_bounds_witness :
    exceptOk (LogRecord.construct sampleEnv none (some sampleStack)).1
      = true ∧
    (LogRecord.construct sampleEnv none (some [siteB, siteA])).1
      = .error (.typeError "Cannot read properties of undefined") :=
  ⟨(construct_frame_bounds sampleEnv none sampleStack).1 (by decide),
   ((construct_frame_bounds sampleEnv none [siteB, siteA]).2 (by decide)).2⟩

/-- Claim C10: every freshly constructed record serializes `process.args`
(its array value — even the empty array — is truthy), while
`process.args_count` appears exactly when its value is non-zero. -/
theorem fresh_record_process_args (env : ConstructionEnv) (st : Option Nat)
    (rawStack : Option (List CallSite)) (r : LogRecord)
    (_hr : (LogRecord.construct env st rawStack).1 = .ok r) :
    "process.args" ∈ r.toJSON.map Prod.fst ∧
    ("process.args_count" ∈ r.toJSON.map Prod.fst
      ↔ r.processArgsCount ≠ 0) := by
  constructor
  · exact (mem_toJSON_keys r _).2 ⟨by decide, rfl⟩
  · rw [mem_toJSON_keys]
    show _ ∧ (!(r.processArgsCount == 0)) = true ↔ _
    constructor
    · intro hk
      simpa using hk.2
    · intro hn
      exact ⟨by decide, by simpa using hn⟩

/-- Witness for C10: the fresh sample record has `process.args = []`
(truthy, serialized) and `process.args_count = 0` (omitted). -/
theorem fresh_record_process_args_witness :
    ("process.args" ∈ freshRecord.toJSON.map Prod.fst ∧
      ("process.args_count" ∈ freshRecord.toJSON.map Prod.fst
        ↔ freshRecord.processArgsCount ≠ 0)) ∧
    freshRecord.processArgs = [] ∧ freshRecord.processArgsCount = 0 :=
  ⟨fresh_record_process_args sampleEnv none (some sampleStack) freshRecord
      rfl,
   rfl, rfl⟩

end Logger
